import Mathlib

/-!
Verification development for the client-side coordinators of the
productivity-dashboard repository: the Session State Coordinator
(`IntegrationsProvider` in the integrations context module) and the
Conversation Coordinator (`ChatProvider` in the chat context module),
together with the Remote Gateway surface they consume (`services/api.ts`).

The coordinators are embedded shallowly: each asynchronous operation
becomes a pure function from the coordinator state and an explicit gateway
outcome (the resolution or rejection of the remote call it awaits) to an
`OpOut`: the new state, the ordered list of gateway calls issued, and
whether the operation's own promise resolves or rejects.  JavaScript
objects used as string-keyed maps (the `integrations` set, which receives
computed keys `[id]: true` for arbitrary identifiers) are embedded as
ordered association lists with JavaScript spread-update semantics.
-/

set_option autoImplicit false

namespace Dashboard

/-- A JavaScript object with boolean values, as an ordered association
list: insertion order is kept, keys are unique. -/
abbrev KVMap : Type := List (String × Bool)

/-- Whether key `k` is present in the object. -/
def hasKey (m : KVMap) (k : String) : Bool :=
  m.any (fun p => p.1 == k)

/-- The value stored at key `k`, if present. -/
def getKey (m : KVMap) (k : String) : Option Bool :=
  (m.find? (fun p => p.1 == k)).map Prod.snd

/-- JavaScript `{ ...m, [k]: v }`: overwrite `k` in place when present,
append it otherwise. -/
def setKey (m : KVMap) (k : String) (v : Bool) : KVMap :=
  if hasKey m k then
    m.map (fun p => if p.1 == k then (k, v) else p)
  else
    m ++ [(k, v)]

/-- One record of the gateway's integration-status response
(`IntegrationStatus` in `services/api.ts`). -/
structure IntegrationStatus where
  service : String
  connected : Bool
  last_sync : Option String
  error : Option String
deriving Repr, DecidableEq

/-- The credential bundle for the issue-tracker connect endpoint. -/
structure JiraCredentials where
  domain : String
  email : String
  token : String
deriving Repr, DecidableEq

/-- The six typed keys of `GoogleServiceData`. -/
inductive GService where
  | forms | slides | sheets | gmail | calendar | drive
deriving Repr, DecidableEq

def GService.toStr : GService → String
  | .forms => "forms"
  | .slides => "slides"
  | .sheets => "sheets"
  | .gmail => "gmail"
  | .calendar => "calendar"
  | .drive => "drive"

/-- The per-service cache of fetched payload records (`googleData`).
`Rec` is the opaque record type: the coordinator never inspects records. -/
structure GoogleServiceData (Rec : Type) where
  forms : List Rec
  slides : List Rec
  sheets : List Rec
  gmail : List Rec
  calendar : List Rec
  drive : List Rec
deriving Repr, DecidableEq

def emptyGoogleData (Rec : Type) : GoogleServiceData Rec :=
  ⟨[], [], [], [], [], []⟩

/-- `{ ...prev, [service]: v }` on the typed google cache. -/
def setGoogleSlot {Rec : Type} (g : GoogleServiceData Rec) :
    GService → List Rec → GoogleServiceData Rec
  | .forms, v => { g with forms := v }
  | .slides, v => { g with slides := v }
  | .sheets, v => { g with sheets := v }
  | .gmail, v => { g with gmail := v }
  | .calendar, v => { g with calendar := v }
  | .drive, v => { g with drive := v }

def getGoogleSlot {Rec : Type} (g : GoogleServiceData Rec) : GService → List Rec
  | .forms => g.forms
  | .slides => g.slides
  | .sheets => g.sheets
  | .gmail => g.gmail
  | .calendar => g.calendar
  | .drive => g.drive

/-- A call issued to the Remote Gateway (`integrationsAPI` / `chatAPI`). -/
inductive GatewayCall where
  | getStatus
  | getGoogleData (service : String)
  | getJiraData (kind : String)
  | disconnectGoogle
  | connectJira (credentials : JiraCredentials)
  | doSyncAll
  | sendChat (history : List (String × String)) (threadId : Option String)
deriving Repr, DecidableEq

/-- The observable outcome of one coordinator operation: the state it
leaves behind, the gateway calls it issued in order, and whether its own
promise resolved (`.ok ()`) or rejected (`.error ()`). -/
structure OpOut (σ : Type) where
  state : σ
  calls : List GatewayCall
  result : Except Unit Unit

/-- The Session State Coordinator's state (`IntegrationsProvider`).
`log` records the console messages emitted so far. -/
structure IntegrationsState (Rec : Type) where
  integrations : KVMap
  integrationStatus : List IntegrationStatus
  isLoading : Bool
  jiraIssues : List Rec
  jiraProjects : List Rec
  googleData : GoogleServiceData Rec
  log : List String

/-- The object literal the provider mounts with: all eight fixed keys false. -/
def initialIntegrations : KVMap :=
  [("gmail", false), ("calendar", false), ("drive", false), ("forms", false),
   ("slides", false), ("sheets", false), ("jira", false), ("confluence", false)]

/-- The coordinator's state at mount. -/
def initState (Rec : Type) : IntegrationsState Rec :=
  { integrations := initialIntegrations
    integrationStatus := []
    isLoading := false
    jiraIssues := []
    jiraProjects := []
    googleData := emptyGoogleData Rec
    log := [] }

/-- One step of the `response.data.forEach(status => ...)` loop inside
`refreshStatus`: a connected `google` record turns on the six mail-suite
keys, a connected `jira` record turns on `jira` and `confluence`. -/
def applyStatus (acc : KVMap) (s : IntegrationStatus) : KVMap :=
  if s.service == "google" && s.connected then
    setKey (setKey (setKey (setKey (setKey (setKey acc
      "gmail" true) "calendar" true) "drive" true) "forms" true) "slides" true) "sheets" true
  else if s.service == "jira" && s.connected then
    setKey (setKey acc "jira" true) "confluence" true
  else
    acc

/-- The fresh `newIntegrations` object `refreshStatus` derives from the
status list: the all-false literal, then the `forEach` loop. -/
def deriveIntegrations (l : List IntegrationStatus) : KVMap :=
  l.foldl applyStatus initialIntegrations

/-- `refreshStatus`: fetch the status list; on success replace
`integrationStatus` and `integrations` wholesale; on failure log and leave
them unchanged; either way the loading flag ends false and the operation
resolves. -/
def refreshStatus {Rec : Type} (st : IntegrationsState Rec)
    (outcome : Except Unit (List IntegrationStatus)) :
    OpOut (IntegrationsState Rec) :=
  match outcome with
  | .ok data =>
      { state := { st with
          integrationStatus := data
          integrations := deriveIntegrations data
          isLoading := false }
        calls := [GatewayCall.getStatus]
        result := .ok () }
  | .error _ =>
      { state := { st with
          isLoading := false
          log := st.log ++ ["Failed to fetch integration status:"] }
        calls := [GatewayCall.getStatus]
        result := .ok () }

/-- The identifiers `['gmail', 'calendar', 'drive', 'forms', 'slides',
'sheets']` tested by `connectIntegration` / `disconnectIntegration`. -/
def googleFamily : List String :=
  ["gmail", "calendar", "drive", "forms", "slides", "sheets"]

/-- `connectIntegration(id, credentials?)`.  `gOutcome` is the auth-check
call's outcome on the mail-suite branch, `jOutcome` the issue-tracker
connect call's outcome, `sOutcome` the status call inside the nested
`refreshStatus()`.  The issue-tracker branch awaits `connectJira` outside
any try/catch, so its rejection rejects the whole operation. -/
def connectIntegration {Rec : Type} (st : IntegrationsState Rec) (id : String)
    (credentials : Option JiraCredentials)
    (gOutcome jOutcome : Except Unit Unit)
    (sOutcome : Except Unit (List IntegrationStatus)) :
    OpOut (IntegrationsState Rec) :=
  if googleFamily.contains id then
    match gOutcome with
    | .ok _ =>
        let r := refreshStatus st sOutcome
        { state := r.state
          calls := GatewayCall.getGoogleData id :: r.calls
          result := .ok () }
    | .error _ =>
        { state := { st with log := st.log ++ ["Google auth required"] }
          calls := [GatewayCall.getGoogleData id]
          result := .ok () }
  else if id == "jira" && credentials.isSome then
    match credentials with
    | some c =>
        match jOutcome with
        | .ok _ =>
            let r := refreshStatus st sOutcome
            { state := r.state
              calls := GatewayCall.connectJira c :: r.calls
              result := .ok () }
        | .error _ =>
            { state := st
              calls := [GatewayCall.connectJira c]
              result := .error () }
    | none =>
        { state := { st with integrations := setKey st.integrations id true }
          calls := []
          result := .ok () }
  else
    { state := { st with integrations := setKey st.integrations id true }
      calls := []
      result := .ok () }

/-- `disconnectIntegration(id)`: remote disconnect plus refresh for
mail-suite identifiers (errors caught and logged), a local flip to false
for every other identifier. -/
def disconnectIntegration {Rec : Type} (st : IntegrationsState Rec) (id : String)
    (dOutcome : Except Unit Unit)
    (sOutcome : Except Unit (List IntegrationStatus)) :
    OpOut (IntegrationsState Rec) :=
  if googleFamily.contains id then
    match dOutcome with
    | .ok _ =>
        let r := refreshStatus st sOutcome
        { state := r.state
          calls := GatewayCall.disconnectGoogle :: r.calls
          result := .ok () }
    | .error _ =>
        { state := { st with log := st.log ++ ["Failed to disconnect Google:"] }
          calls := [GatewayCall.disconnectGoogle]
          result := .ok () }
  else
    { state := { st with integrations := setKey st.integrations id false }
      calls := []
      result := .ok () }

/-- `syncAll()`: remote sync then refresh inside one try/catch; a failed
sync is logged and skips the refresh. -/
def syncAll {Rec : Type} (st : IntegrationsState Rec)
    (yOutcome : Except Unit Unit)
    (sOutcome : Except Unit (List IntegrationStatus)) :
    OpOut (IntegrationsState Rec) :=
  match yOutcome with
  | .ok _ =>
      let r := refreshStatus st sOutcome
      { state := r.state
        calls := GatewayCall.doSyncAll :: r.calls
        result := .ok () }
  | .error _ =>
      { state := { st with
          isLoading := false
          log := st.log ++ ["Failed to sync integrations:"] }
        calls := [GatewayCall.doSyncAll]
        result := .ok () }

/-- `fetchJiraIssues()`: on success replace the issues slot with
`response.data.data || []` (`none` models a missing/falsy `data` field);
on failure log and reset the slot to `[]`. -/
def fetchJiraIssues {Rec : Type} (st : IntegrationsState Rec)
    (outcome : Except Unit (Option (List Rec))) :
    OpOut (IntegrationsState Rec) :=
  match outcome with
  | .ok body =>
      { state := { st with jiraIssues := body.getD [], isLoading := false }
        calls := [GatewayCall.getJiraData "issues"]
        result := .ok () }
  | .error _ =>
      { state := { st with
          jiraIssues := []
          isLoading := false
          log := st.log ++ ["Failed to fetch Jira issues:"] }
        calls := [GatewayCall.getJiraData "issues"]
        result := .ok () }

/-- `fetchJiraProjects()`: same shape on the projects slot. -/
def fetchJiraProjects {Rec : Type} (st : IntegrationsState Rec)
    (outcome : Except Unit (Option (List Rec))) :
    OpOut (IntegrationsState Rec) :=
  match outcome with
  | .ok body =>
      { state := { st with jiraProjects := body.getD [], isLoading := false }
        calls := [GatewayCall.getJiraData "projects"]
        result := .ok () }
  | .error _ =>
      { state := { st with
          jiraProjects := []
          isLoading := false
          log := st.log ++ ["Failed to fetch Jira projects:"] }
        calls := [GatewayCall.getJiraData "projects"]
        result := .ok () }

/-- `fetchGoogleService(service)`: on success overwrite exactly that slot
with `response?.data?.data || []` and log; on failure only log — the
catch branch of this operation does not touch `googleData`. -/
def fetchGoogleService {Rec : Type} (st : IntegrationsState Rec)
    (service : GService) (outcome : Except Unit (Option (List Rec))) :
    OpOut (IntegrationsState Rec) :=
  match outcome with
  | .ok body =>
      { state := { st with
          googleData := setGoogleSlot st.googleData service (body.getD [])
          isLoading := false
          log := st.log ++ ["Fetched service data:"] }
        calls := [GatewayCall.getGoogleData service.toStr]
        result := .ok () }
  | .error _ =>
      { state := { st with
          isLoading := false
          log := st.log ++ ["Failed to fetch Google service data:"] }
        calls := [GatewayCall.getGoogleData service.toStr]
        result := .ok () }

/-! ### The Conversation Coordinator (`ChatProvider`) -/

/-- Message roles (`type: 'user' | 'assistant'`). -/
inductive Role where
  | user | assistant
deriving Repr, DecidableEq

/-- An optional attachment of a chat `Message`. -/
structure Attachment where
  kind : String
  title : String
  description : String
  status : Option String
  dueDate : Option String
deriving Repr, DecidableEq

/-- A chat `Message`: id and timestamp are derived from the wall clock
(`Date.now()`), modelled as an explicit `Nat` input. -/
structure Message where
  id : String
  content : String
  role : Role
  timestamp : Nat
  attachments : Option (List Attachment)
deriving Repr, DecidableEq

/-- The gateway chat response body (`ChatResponse`). -/
structure ChatResponse where
  message : String
  thread_id : String
  context_used : Bool
deriving Repr, DecidableEq

/-- The Conversation Coordinator's state (`ChatProvider`). -/
structure ChatState where
  messages : List Message
  isLoading : Bool
  currentThreadId : Option String
  log : List String
deriving Repr, DecidableEq

/-- The coordinator's state at mount: empty history, no thread. -/
def initChatState : ChatState :=
  { messages := [], isLoading := false, currentThreadId := none, log := [] }

/-- JavaScript `a || b` on optional strings: `undefined`, `null` and the
empty string are falsy. -/
def jsOrStr (a b : Option String) : Option String :=
  match a with
  | some s => if s = "" then b else some s
  | none => b

/-- The fixed fallback assistant content appended when the chat call fails. -/
def fallbackContent : String :=
  "Sorry, I encountered an error processing your request. Please try again."

def Role.toStr : Role → String
  | .user => "user"
  | .assistant => "assistant"

/-- The `{role, content}` pairs serialized into the gateway chat call:
the pre-append history snapshot plus the new user entry. -/
def apiMessages (history : List Message) (content : String) : List (String × String) :=
  history.map (fun m => (m.role.toStr, m.content)) ++ [("user", content)]

/-- `sendMessage(content, threadId?)`.  `tu` and `ta` are the values of
`Date.now()` at the two message-construction sites; `outcome` is the
gateway chat call's resolution.  The user message is appended before the
try block; the assistant (or fallback) message after it; errors are caught
and logged, so the operation always resolves. -/
def sendMessage (st : ChatState) (content : String) (threadId : Option String)
    (tu ta : Nat) (outcome : Except Unit ChatResponse) : OpOut ChatState :=
  let userMessage : Message := ⟨toString tu, content, Role.user, tu, none⟩
  let sent := apiMessages st.messages content
  let tid := jsOrStr threadId (jsOrStr st.currentThreadId none)
  match outcome with
  | .ok r =>
      { state := { st with
          messages := st.messages ++
            [userMessage, ⟨toString (ta + 1), r.message, Role.assistant, ta, none⟩]
          currentThreadId := some r.thread_id
          isLoading := false }
        calls := [GatewayCall.sendChat sent tid]
        result := .ok () }
  | .error _ =>
      { state := { st with
          messages := st.messages ++
            [userMessage, ⟨toString (ta + 1), fallbackContent, Role.assistant, ta, none⟩]
          isLoading := false
          log := st.log ++ ["Failed to send message:"] }
        calls := [GatewayCall.sendChat sent tid]
        result := .ok () }

/-- `clearMessages()`: reset history and thread id together. -/
def clearMessages (st : ChatState) : ChatState :=
  { st with messages := [], currentThreadId := none }

/-! ### The composed application state

The two coordinators are mounted side by side; an integrations operation
acts on the integrations component only. -/

/-- Both coordinators' states together. -/
structure AppState (Rec : Type) where
  sessions : IntegrationsState Rec
  chat : ChatState

/-- Lift an integrations-coordinator operation to the composed state. -/
def liftSession {Rec : Type}
    (op : IntegrationsState Rec → OpOut (IntegrationsState Rec))
    (st : AppState Rec) : OpOut (AppState Rec) :=
  let r := op st.sessions
  { state := { st with sessions := r.state }, calls := r.calls, result := r.result }

/-! ### Helper lemmas -/

/-- A status record for the mail-suite family (`google`) with
`connected = true`. -/
def isGoogleConnected (s : IntegrationStatus) : Bool :=
  s.service == "google" && s.connected

/-- A status record for the issue tracker (`jira`) with `connected = true`. -/
def isJiraConnected (s : IntegrationStatus) : Bool :=
  s.service == "jira" && s.connected

/-- The derived IntegrationSet as the specification describes it: the six
mail-suite keys are true exactly when some connected mail-suite record is
present, the issue-tracker and wiki keys exactly when some connected
issue-tracker record is present, and nothing else is ever true. -/
def specDerivedIntegrations (l : List IntegrationStatus) : KVMap :=
  [("gmail", l.any isGoogleConnected), ("calendar", l.any isGoogleConnected),
   ("drive", l.any isGoogleConnected), ("forms", l.any isGoogleConnected),
   ("slides", l.any isGoogleConnected), ("sheets", l.any isGoogleConnected),
   ("jira", l.any isJiraConnected), ("confluence", l.any isJiraConnected)]

lemma applyStatus_shape (a b c d e f j k : Bool) (s : IntegrationStatus) :
    applyStatus
      [("gmail", a), ("calendar", b), ("drive", c), ("forms", d),
       ("slides", e), ("sheets", f), ("jira", j), ("confluence", k)] s
    = [("gmail", a || isGoogleConnected s), ("calendar", b || isGoogleConnected s),
       ("drive", c || isGoogleConnected s), ("forms", d || isGoogleConnected s),
       ("slides", e || isGoogleConnected s), ("sheets", f || isGoogleConnected s),
       ("jira", j || isJiraConnected s), ("confluence", k || isJiraConnected s)] := by
  by_cases hg : isGoogleConnected s = true
  · have hserv : s.service = "google" := by
      have := hg
      simp only [isGoogleConnected, Bool.and_eq_true, beq_iff_eq] at this
      exact this.1
    have hj : isJiraConnected s = false := by
      simp [isJiraConnected, hserv]
    simp only [isGoogleConnected, Bool.and_eq_true] at hg
    simp [applyStatus, hserv, hg.2, hj, setKey, hasKey, isGoogleConnected]
  · have hg' : isGoogleConnected s = false := by
      cases h : isGoogleConnected s
      · rfl
      · exact absurd h hg
    by_cases hjb : isJiraConnected s = true
    · have hserv : s.service = "jira" := by
        have := hjb
        simp only [isJiraConnected, Bool.and_eq_true, beq_iff_eq] at this
        exact this.1
      have hconn : s.connected = true := by
        have := hjb
        simp only [isJiraConnected, Bool.and_eq_true] at this
        exact this.2
      simp [applyStatus, hserv, hconn, hg', hjb, setKey, hasKey]
    · have hj' : isJiraConnected s = false := by
        cases h : isJiraConnected s
        · rfl
        · exact absurd h hjb
      have hone : (s.service == "google" && s.connected) = false := hg'
      have htwo : (s.service == "jira" && s.connected) = false := hj'
      simp [applyStatus, hone, htwo, hg', hj']

lemma foldl_applyStatus (l : List IntegrationStatus) (a b c d e f j k : Bool) :
    List.foldl applyStatus
      [("gmail", a), ("calendar", b), ("drive", c), ("forms", d),
       ("slides", e), ("sheets", f), ("jira", j), ("confluence", k)] l
    = [("gmail", a || l.any isGoogleConnected), ("calendar", b || l.any isGoogleConnected),
       ("drive", c || l.any isGoogleConnected), ("forms", d || l.any isGoogleConnected),
       ("slides", e || l.any isGoogleConnected), ("sheets", f || l.any isGoogleConnected),
       ("jira", j || l.any isJiraConnected), ("confluence", k || l.any isJiraConnected)] := by
  induction l generalizing a b c d e f j k with
  | nil => simp
  | cons s t ih =>
      rw [List.foldl_cons, applyStatus_shape, ih]
      simp [List.any_cons, Bool.or_assoc]

/-- `refreshStatus`'s derivation loop computes exactly the specified set. -/
lemma deriveIntegrations_eq (l : List IntegrationStatus) :
    deriveIntegrations l = specDerivedIntegrations l := by
  rw [deriveIntegrations, initialIntegrations, foldl_applyStatus]
  simp [specDerivedIntegrations]

lemma bool_false_of_not {b : Bool} (h : ¬b = true) : b = false := by
  cases b
  · rfl
  · exact absurd rfl h

lemma getKey_cons (p : String × Bool) (t : KVMap) (k : String) :
    getKey (p :: t) k = if p.1 == k then some p.2 else getKey t k := by
  cases hp : p.1 == k <;> simp [getKey, List.find?, hp]

lemma hasKey_cons (p : String × Bool) (t : KVMap) (k : String) :
    hasKey (p :: t) k = ((p.1 == k) || hasKey t k) := by
  simp [hasKey, List.any_cons]

/-- The overwrite half of `setKey` (the key is already present). -/
def overwrite (m : KVMap) (k : String) (v : Bool) : KVMap :=
  m.map (fun p => if p.1 == k then (k, v) else p)

lemma setKey_eq_ite (m : KVMap) (k : String) (v : Bool) :
    setKey m k v = if hasKey m k then overwrite m k v else m ++ [(k, v)] := rfl

lemma getKey_overwrite_self (m : KVMap) (k : String) (v : Bool)
    (h : hasKey m k = true) : getKey (overwrite m k v) k = some v := by
  induction m with
  | nil => simp [hasKey] at h
  | cons p t ih =>
      by_cases hp : (p.1 == k) = true
      · have hhead : overwrite (p :: t) k v = (k, v) :: overwrite t k v := by
          rw [overwrite, List.map_cons, if_pos hp]
          rfl
        rw [hhead, getKey_cons]
        simp
      · have hp' := bool_false_of_not hp
        have hhead : overwrite (p :: t) k v = p :: overwrite t k v := by
          rw [overwrite, List.map_cons, if_neg fun hh => absurd hh hp]
          rfl
        rw [hhead, getKey_cons, if_neg fun hh => absurd hh hp]
        rw [hasKey_cons, hp', Bool.false_or] at h
        exact ih h

lemma getKey_overwrite_ne (m : KVMap) (k k' : String) (v : Bool)
    (hne : k' ≠ k) : getKey (overwrite m k v) k' = getKey m k' := by
  induction m with
  | nil => rfl
  | cons p t ih =>
      by_cases hp : (p.1 == k) = true
      · have hhead : overwrite (p :: t) k v = (k, v) :: overwrite t k v := by
          rw [overwrite, List.map_cons, if_pos hp]
          rfl
        have hkk' : (k == k') = false := by
          cases hh : k == k'
          · rfl
          · exact absurd (beq_iff_eq.mp hh).symm hne
        have hpk' : (p.1 == k') = false := by
          cases hh : p.1 == k'
          · rfl
          · exact absurd ((beq_iff_eq.mp hp) ▸ (beq_iff_eq.mp hh)).symm hne
        rw [hhead, getKey_cons, getKey_cons]
        simp only [hkk', hpk', if_neg]
        · exact ih
      · have hp' := bool_false_of_not hp
        have hhead : overwrite (p :: t) k v = p :: overwrite t k v := by
          rw [overwrite, List.map_cons, if_neg fun hh => absurd hh hp]
          rfl
        rw [hhead, getKey_cons, getKey_cons]
        by_cases hq : (p.1 == k') = true
        · rw [if_pos hq, if_pos hq]
        · rw [if_neg fun hh => absurd hh hq, if_neg fun hh => absurd hh hq]
          exact ih

lemma hasKey_eq_isSome (m : KVMap) (k : String) :
    hasKey m k = (getKey m k).isSome := by
  induction m with
  | nil => rfl
  | cons p t ih =>
      cases hp : p.1 == k <;> simp [hasKey_cons, getKey_cons, hp, ih]

lemma getKey_append_single_of_none (m : KVMap) (k k' : String) (v : Bool)
    (h : getKey m k' = none) :
    getKey (m ++ [(k, v)]) k' = if k == k' then some v else none := by
  induction m with
  | nil => rw [List.nil_append, getKey_cons]; rfl
  | cons p t ih =>
      rw [List.cons_append, getKey_cons]
      rw [getKey_cons] at h
      by_cases hp : (p.1 == k') = true
      · rw [if_pos hp] at h
        exact absurd h (by simp)
      · rw [if_neg fun hh => absurd hh hp] at h ⊢
        exact ih h

lemma getKey_append_single_of_some (m : KVMap) (k k' : String) (v w : Bool)
    (h : getKey m k' = some w) : getKey (m ++ [(k, v)]) k' = some w := by
  induction m with
  | nil => simp [getKey] at h
  | cons p t ih =>
      rw [List.cons_append, getKey_cons]
      rw [getKey_cons] at h
      by_cases hp : (p.1 == k') = true
      · rw [if_pos hp] at h
        rw [if_pos hp]
        exact h
      · rw [if_neg fun hh => absurd hh hp] at h ⊢
        exact ih h

lemma getKey_setKey_self (m : KVMap) (k : String) (v : Bool) :
    getKey (setKey m k v) k = some v := by
  rw [setKey_eq_ite]
  by_cases h : hasKey m k = true
  · rw [if_pos h]
    exact getKey_overwrite_self m k v h
  · rw [if_neg fun hh => absurd hh h]
    have hnone : getKey m k = none := by
      have := hasKey_eq_isSome m k
      rw [bool_false_of_not h] at this
      cases hg : getKey m k
      · rfl
      · rw [hg] at this
        exact absurd this.symm (by simp)
    rw [getKey_append_single_of_none m k k v hnone]
    simp

lemma getKey_setKey_ne (m : KVMap) (k k' : String) (v : Bool) (hne : k' ≠ k) :
    getKey (setKey m k v) k' = getKey m k' := by
  rw [setKey_eq_ite]
  by_cases h : hasKey m k = true
  · rw [if_pos h]
    exact getKey_overwrite_ne m k k' v hne
  · rw [if_neg fun hh => absurd hh h]
    cases hg : getKey m k'
    · rw [getKey_append_single_of_none m k k' v hg]
      have hkk' : (k == k') = false := by
        cases hh : k == k'
        · rfl
        · exact absurd (beq_iff_eq.mp hh).symm hne
      rw [hkk']
      rfl
    · exact getKey_append_single_of_some m k k' v _ hg

lemma hasKey_setKey_of_hasKey (m : KVMap) (k k' : String) (v : Bool)
    (h : hasKey m k' = true) : hasKey (setKey m k v) k' = true := by
  by_cases he : k' = k
  · subst he
    rw [hasKey_eq_isSome, getKey_setKey_self]
    rfl
  · rw [hasKey_eq_isSome, getKey_setKey_ne m k k' v he, ← hasKey_eq_isSome]
    exact h

/-- All eight enumerated integration identifiers. -/
def fixedKeys : List String :=
  ["gmail", "calendar", "drive", "forms", "slides", "sheets", "jira", "confluence"]

/-- Every key of the fixed enumerated set is present. -/
def hasAllKeys (m : KVMap) : Bool :=
  fixedKeys.all (hasKey m)

lemma hasAllKeys_setKey (m : KVMap) (k : String) (v : Bool)
    (h : hasAllKeys m = true) : hasAllKeys (setKey m k v) = true := by
  rw [hasAllKeys, List.all_eq_true] at h ⊢
  intro x hx
  exact hasKey_setKey_of_hasKey m k x v (h x hx)

lemma hasAllKeys_specDerived (l : List IntegrationStatus) :
    hasAllKeys (specDerivedIntegrations l) = true := by
  rfl

lemma hasAllKeys_derive (l : List IntegrationStatus) :
    hasAllKeys (deriveIntegrations l) = true := by
  rw [deriveIntegrations_eq]; exact hasAllKeys_specDerived l

lemma hasAllKeys_refresh {Rec : Type} (st : IntegrationsState Rec)
    (o : Except Unit (List IntegrationStatus))
    (h : hasAllKeys st.integrations = true) :
    hasAllKeys (refreshStatus st o).state.integrations = true := by
  cases o with
  | ok data => exact hasAllKeys_derive data
  | error e => exact h

/-! ### Claim theorems -/

/-- C1: for every status-record sequence, `refreshStatus` replaces the
IntegrationSet wholesale with the set the specification describes — a
connected `google` record turns on all six mail-suite keys, a connected
`jira` record turns on both issue-tracker-family keys, and every other key
is false; the two families are always set together, and the concrete
scenario `[{service: google, connected: true}]` yields exactly the set
with the six mail-suite keys true and `jira`/`confluence` false. -/
theorem refreshStatus_derives_spec (Rec : Type) (st : IntegrationsState Rec)
    (l : List IntegrationStatus) :
    (refreshStatus st (Except.ok l)).state.integrations = specDerivedIntegrations l
    ∧ (getKey (refreshStatus st (Except.ok l)).state.integrations "gmail"
         = getKey (refreshStatus st (Except.ok l)).state.integrations "calendar"
      ∧ getKey (refreshStatus st (Except.ok l)).state.integrations "calendar"
         = getKey (refreshStatus st (Except.ok l)).state.integrations "drive"
      ∧ getKey (refreshStatus st (Except.ok l)).state.integrations "drive"
         = getKey (refreshStatus st (Except.ok l)).state.integrations "sheets"
      ∧ getKey (refreshStatus st (Except.ok l)).state.integrations "sheets"
         = getKey (refreshStatus st (Except.ok l)).state.integrations "slides"
      ∧ getKey (refreshStatus st (Except.ok l)).state.integrations "slides"
         = getKey (refreshStatus st (Except.ok l)).state.integrations "forms"
      ∧ getKey (refreshStatus st (Except.ok l)).state.integrations "jira"
         = getKey (refreshStatus st (Except.ok l)).state.integrations "confluence")
    ∧ (refreshStatus (initState Nat)
         (Except.ok [⟨"google", true, none, none⟩])).state.integrations
       = [("gmail", true), ("calendar", true), ("drive", true), ("forms", true),
          ("slides", true), ("sheets", true), ("jira", false), ("confluence", false)] := by
  have h1 : (refreshStatus st (Except.ok l)).state.integrations
      = specDerivedIntegrations l := deriveIntegrations_eq l
  refine ⟨h1, ?_, ?_⟩
  · rw [h1]
    exact ⟨rfl, rfl, rfl, rfl, rfl, rfl⟩
  · decide

/-- C8: when the status call fails, `refreshStatus` leaves the
IntegrationSet (and the raw status list) exactly as it was, appends the
error to the log, and clears the loading flag. -/
theorem refreshStatus_failure_atomic (Rec : Type) (st : IntegrationsState Rec) :
    (refreshStatus st (Except.error ())).state.integrations = st.integrations
    ∧ (refreshStatus st (Except.error ())).state.integrationStatus = st.integrationStatus
    ∧ (refreshStatus st (Except.error ())).state.isLoading = false
    ∧ (refreshStatus st (Except.error ())).state.log
        = st.log ++ ["Failed to fetch integration status:"] :=
  ⟨rfl, rfl, rfl, rfl⟩

/-- C3: `sendMessage "hi"` on the empty conversation state with a
successful gateway call leaves exactly a user message with content `hi`
followed by one assistant message built from the response body, serializes
exactly the one-entry history into the single gateway call, and moves the
thread id from `none` to the gateway-provided value. -/
theorem sendMessage_success_empty (tu ta : Nat) (r : ChatResponse) :
    (sendMessage initChatState "hi" none tu ta (Except.ok r)).state.messages
      = [⟨toString tu, "hi", Role.user, tu, none⟩,
         ⟨toString (ta + 1), r.message, Role.assistant, ta, none⟩]
    ∧ (sendMessage initChatState "hi" none tu ta (Except.ok r)).calls
      = [GatewayCall.sendChat [("user", "hi")] none]
    ∧ initChatState.currentThreadId = none
    ∧ (sendMessage initChatState "hi" none tu ta (Except.ok r)).state.currentThreadId
      = some r.thread_id :=
  ⟨rfl, rfl, rfl, rfl⟩

/-- C4: for every starting conversation state, a failing gateway call
leaves the history equal to the prior history plus the just-appended user
message plus exactly the fixed fallback assistant message; the thread id
is unchanged and exactly one gateway call was issued (no retry). -/
theorem sendMessage_failure_fallback (st : ChatState) (content : String)
    (threadId : Option String) (tu ta : Nat) :
    (sendMessage st content threadId tu ta (Except.error ())).state.messages
      = st.messages ++
        [⟨toString tu, content, Role.user, tu, none⟩,
         ⟨toString (ta + 1), fallbackContent, Role.assistant, ta, none⟩]
    ∧ (sendMessage st content threadId tu ta (Except.error ())).state.currentThreadId
      = st.currentThreadId
    ∧ (sendMessage st content threadId tu ta (Except.error ())).calls
      = [GatewayCall.sendChat (apiMessages st.messages content)
           (jsOrStr threadId (jsOrStr st.currentThreadId none))] :=
  ⟨rfl, rfl, rfl⟩

/-- C5: for an identifier outside the mail-suite family and different
from the issue-tracker identifier, `connectIntegration` sets exactly that
key to true and `disconnectIntegration` sets it to false, both with no
gateway call of any kind and with every other key left untouched. -/
theorem connect_disconnect_local_toggle (Rec : Type) (st : IntegrationsState Rec)
    (id : String) (credentials : Option JiraCredentials)
    (g j d : Except Unit Unit) (s : Except Unit (List IntegrationStatus))
    (hfam : googleFamily.contains id = false) (hjira : id ≠ "jira") :
    (connectIntegration st id credentials g j s).calls = []
    ∧ (connectIntegration st id credentials g j s).state.integrations
        = setKey st.integrations id true
    ∧ getKey (connectIntegration st id credentials g j s).state.integrations id
        = some true
    ∧ (∀ k, k ≠ id →
        getKey (connectIntegration st id credentials g j s).state.integrations k
          = getKey st.integrations k)
    ∧ (disconnectIntegration st id d s).calls = []
    ∧ (disconnectIntegration st id d s).state.integrations
        = setKey st.integrations id false
    ∧ getKey (disconnectIntegration st id d s).state.integrations id = some false
    ∧ (∀ k, k ≠ id →
        getKey (disconnectIntegration st id d s).state.integrations k
          = getKey st.integrations k) := by
  have hjb : (id == "jira") = false := by
    cases hh : id == "jira"
    · rfl
    · exact absurd (beq_iff_eq.mp hh) hjira
  have hc : connectIntegration st id credentials g j s
      = { state := { st with integrations := setKey st.integrations id true }
          calls := [], result := .ok () } := by
    rw [connectIntegration.eq_def, hfam, hjb]
    simp
  have hd : disconnectIntegration st id d s
      = { state := { st with integrations := setKey st.integrations id false }
          calls := [], result := .ok () } := by
    rw [disconnectIntegration.eq_def, hfam]
    simp
  rw [hc, hd]
  refine ⟨rfl, rfl, getKey_setKey_self _ _ _, ?_, rfl, rfl, getKey_setKey_self _ _ _, ?_⟩
  · intro k hk
    exact getKey_setKey_ne st.integrations id k true hk
  · intro k hk
    exact getKey_setKey_ne st.integrations id k false hk

/-- Closed witness for the local-toggle theorem at a concrete unknown
identifier. -/
theorem connect_disconnect_local_toggle_witness :
    googleFamily.contains "slack" = false ∧ "slack" ≠ "jira"
    ∧ ((connectIntegration (initState Nat) "slack" none (Except.ok ())
          (Except.ok ()) (Except.ok [])).calls = []
      ∧ (connectIntegration (initState Nat) "slack" none (Except.ok ())
          (Except.ok ()) (Except.ok [])).state.integrations
          = setKey (initState Nat).integrations "slack" true
      ∧ getKey (connectIntegration (initState Nat) "slack" none (Except.ok ())
          (Except.ok ()) (Except.ok [])).state.integrations "slack" = some true
      ∧ (∀ k, k ≠ "slack" →
          getKey (connectIntegration (initState Nat) "slack" none (Except.ok ())
            (Except.ok ()) (Except.ok [])).state.integrations k
            = getKey (initState Nat).integrations k)
      ∧ (disconnectIntegration (initState Nat) "slack" (Except.ok ())
          (Except.ok [])).calls = []
      ∧ (disconnectIntegration (initState Nat) "slack" (Except.ok ())
          (Except.ok [])).state.integrations
          = setKey (initState Nat).integrations "slack" false
      ∧ getKey (disconnectIntegration (initState Nat) "slack" (Except.ok ())
          (Except.ok [])).state.integrations "slack" = some false
      ∧ (∀ k, k ≠ "slack" →
          getKey (disconnectIntegration (initState Nat) "slack" (Except.ok ())
            (Except.ok [])).state.integrations k
            = getKey (initState Nat).integrations k)) :=
  ⟨by decide, by decide,
   connect_disconnect_local_toggle Nat (initState Nat) "slack" none
     (Except.ok ()) (Except.ok ()) (Except.ok ()) (Except.ok [])
     (by decide) (by decide)⟩

/-- C9: all eight enumerated keys are present at mount and stay present
after `refreshStatus`, `connectIntegration`, `disconnectIntegration`,
`syncAll` and the data fetches, for arbitrary (also unknown) identifiers
and arbitrary gateway outcomes. -/
theorem integrations_all_keys_present (Rec : Type) (st : IntegrationsState Rec)
    (id : String) (credentials : Option JiraCredentials) (g j d y : Except Unit Unit)
    (s : Except Unit (List IntegrationStatus)) (b : Except Unit (Option (List Rec)))
    (svc : GService) (h : hasAllKeys st.integrations = true) :
    hasAllKeys (initState Rec).integrations = true
    ∧ hasAllKeys (refreshStatus st s).state.integrations = true
    ∧ hasAllKeys (connectIntegration st id credentials g j s).state.integrations = true
    ∧ hasAllKeys (disconnectIntegration st id d s).state.integrations = true
    ∧ hasAllKeys (syncAll st y s).state.integrations = true
    ∧ hasAllKeys (fetchJiraIssues st b).state.integrations = true
    ∧ hasAllKeys (fetchJiraProjects st b).state.integrations = true
    ∧ hasAllKeys (fetchGoogleService st svc b).state.integrations = true := by
  refine ⟨rfl, hasAllKeys_refresh st s h, ?_, ?_, ?_, ?_, ?_, ?_⟩
  · rw [connectIntegration.eq_def]
    by_cases hg : googleFamily.contains id = true
    · rw [if_pos hg]
      cases g with
      | ok u => exact hasAllKeys_refresh st s h
      | error e => exact h
    · rw [if_neg hg]
      by_cases hj : (id == "jira" && credentials.isSome) = true
      · rw [if_pos hj]
        cases credentials with
        | some c =>
            cases j with
            | ok u => exact hasAllKeys_refresh st s h
            | error e => exact h
        | none => exact hasAllKeys_setKey _ id true h
      · rw [if_neg hj]
        exact hasAllKeys_setKey _ id true h
  · rw [disconnectIntegration.eq_def]
    by_cases hg : googleFamily.contains id = true
    · rw [if_pos hg]
      cases d with
      | ok u => exact hasAllKeys_refresh st s h
      | error e => exact h
    · rw [if_neg hg]
      exact hasAllKeys_setKey _ id false h
  · cases y with
    | ok u => exact hasAllKeys_refresh st s h
    | error e => exact h
  · cases b with
    | ok body => exact h
    | error e => exact h
  · cases b with
    | ok body => exact h
    | error e => exact h
  · cases b with
    | ok body => exact h
    | error e => exact h

/-- Closed witness for the all-keys-present theorem at the mount state and
a concrete unknown identifier. -/
theorem integrations_all_keys_present_witness :
    hasAllKeys (initState Nat).integrations = true
    ∧ hasAllKeys (connectIntegration (initState Nat) "notion" none (Except.ok ())
        (Except.ok ()) (Except.ok [])).state.integrations = true :=
  ⟨by decide,
   (integrations_all_keys_present Nat (initState Nat) "notion" none
      (Except.ok ()) (Except.ok ()) (Except.ok ()) (Except.ok ())
      (Except.ok []) (Except.ok none) GService.gmail (by decide)).2.2.1⟩

/-- C2 counterexample: `connectIntegration` for the issue tracker with
credentials supplied rejects (propagates the gateway failure to the
caller) when the connect call fails — the operation's promise does not
resolve. -/
theorem connectIntegration_jira_rejects :
    (connectIntegration (initState Nat) "jira" (some ⟨"dom", "mail", "tok"⟩)
      (Except.ok ()) (Except.error ()) (Except.ok [])).result
    = Except.error () := rfl

/-- C2 (amended): every public coordinator operation resolves for every
gateway outcome, except `connectIntegration` on the issue-tracker branch
with credentials supplied, which rejects exactly when the gateway connect
call fails. -/
theorem operations_resolution_policy (Rec : Type) (st : IntegrationsState Rec)
    (cst : ChatState) (id : String) (credentials : Option JiraCredentials)
    (g j d y : Except Unit Unit) (s : Except Unit (List IntegrationStatus))
    (b b' b'' : Except Unit (Option (List Rec))) (svc : GService)
    (content : String) (threadId : Option String) (tu ta : Nat)
    (oc : Except Unit ChatResponse) :
    (refreshStatus st s).result = Except.ok ()
    ∧ (disconnectIntegration st id d s).result = Except.ok ()
    ∧ (syncAll st y s).result = Except.ok ()
    ∧ (fetchJiraIssues st b).result = Except.ok ()
    ∧ (fetchJiraProjects st b').result = Except.ok ()
    ∧ (fetchGoogleService st svc b'').result = Except.ok ()
    ∧ (sendMessage cst content threadId tu ta oc).result = Except.ok ()
    ∧ ((connectIntegration st id credentials g j s).result = Except.error ()
        ↔ (id == "jira") = true ∧ credentials.isSome = true
          ∧ j = Except.error ()) := by
  refine ⟨?_, ?_, ?_, ?_, ?_, ?_, ?_, ?_⟩
  · cases s <;> rfl
  · rw [disconnectIntegration.eq_def]
    by_cases hg : googleFamily.contains id = true
    · rw [if_pos hg]
      cases d <;> rfl
    · rw [if_neg hg]
  · cases y <;> rfl
  · cases b <;> rfl
  · cases b' <;> rfl
  · cases b'' <;> rfl
  · cases oc <;> rfl
  · rw [connectIntegration.eq_def]
    by_cases hg : googleFamily.contains id = true
    · rw [if_pos hg]
      constructor
      · intro hres
        cases g <;> exact absurd hres (by simp)
      · rintro ⟨h1, _, _⟩
        have hid : id = "jira" := beq_iff_eq.mp h1
        subst hid
        exact absurd hg (by decide)
    · rw [if_neg hg]
      by_cases hj : (id == "jira" && credentials.isSome) = true
      · rw [if_pos hj]
        rw [Bool.and_eq_true] at hj
        obtain ⟨h1, h2⟩ := hj
        cases credentials with
        | none => exact absurd h2 (by simp)
        | some c =>
            cases j with
            | ok u =>
                constructor
                · intro hres
                  exact absurd hres (by simp)
                · rintro ⟨_, _, h3⟩
                  exact absurd h3 (by simp)
            | error u =>
                constructor
                · intro _
                  exact ⟨h1, h2, rfl⟩
                · intro _
                  rfl
      · rw [if_neg hj]
        constructor
        · intro hres
          exact absurd hres (by simp)
        · rintro ⟨h1, h2, _⟩
          rw [Bool.and_eq_true] at hj
          exact absurd ⟨h1, h2⟩ hj

/-- C6 counterexample: `connectIntegration` for the issue tracker with no
credentials performs a credential-free purely local connect — it issues no
gateway call and flips the `jira` flag to true. -/
theorem connectIntegration_jira_no_credentials_local :
    (connectIntegration (initState Nat) "jira" none (Except.ok ())
      (Except.ok ()) (Except.ok [])).calls = []
    ∧ getKey (connectIntegration (initState Nat) "jira" none (Except.ok ())
        (Except.ok ()) (Except.ok [])).state.integrations "jira" = some true :=
  ⟨rfl, rfl⟩

/-- C6 (amended): when credentials are supplied, `connectIntegration` for
the issue tracker forwards the bundle verbatim to the gateway connect
endpoint and then runs `refreshStatus` (on connect failure no refresh
happens); when credentials are absent, the operation instead falls back to
a credential-free local toggle of the `jira` flag with no gateway call. -/
theorem connectIntegration_jira_credentials (Rec : Type)
    (st : IntegrationsState Rec) (c : JiraCredentials) (g j : Except Unit Unit)
    (s : Except Unit (List IntegrationStatus)) :
    (connectIntegration st "jira" (some c) g (Except.ok ()) s).calls
      = [GatewayCall.connectJira c, GatewayCall.getStatus]
    ∧ (connectIntegration st "jira" (some c) g (Except.ok ()) s).state
      = (refreshStatus st s).state
    ∧ (connectIntegration st "jira" (some c) g (Except.error ()) s).calls
      = [GatewayCall.connectJira c]
    ∧ (connectIntegration st "jira" none g j s).calls = []
    ∧ (connectIntegration st "jira" none g j s).state.integrations
      = setKey st.integrations "jira" true := by
  refine ⟨?_, rfl, rfl, rfl, rfl⟩
  cases s <;> rfl

/-- C7 counterexample: a failing `fetchGoogleService` call leaves the
stale records in its cache slot instead of resetting the slot to the empty
sequence. -/
theorem fetchGoogleService_failure_keeps_stale :
    (fetchGoogleService
      { initState Nat with googleData := { emptyGoogleData Nat with gmail := [1, 2] } }
      GService.gmail (Except.error ())).state.googleData.gmail = [1, 2]
    ∧ ([1, 2] : List Nat) ≠ [] :=
  ⟨rfl, by decide⟩

/-- C7 (amended): on success each data fetch replaces exactly its own
cache slot with the returned sequence (empty when the payload's data field
is missing), never merging old and new records; on failure
`fetchJiraIssues` and `fetchJiraProjects` reset their slot to the empty
sequence, while `fetchGoogleService` leaves its whole cache unchanged. -/
theorem fetch_cache_slot_discipline (Rec : Type) (st : IntegrationsState Rec)
    (b : Option (List Rec)) (svc : GService) :
    (fetchJiraIssues st (Except.ok b)).state.jiraIssues = b.getD []
    ∧ (fetchJiraIssues st (Except.error ())).state.jiraIssues = []
    ∧ (fetchJiraProjects st (Except.ok b)).state.jiraProjects = b.getD []
    ∧ (fetchJiraProjects st (Except.error ())).state.jiraProjects = []
    ∧ getGoogleSlot (fetchGoogleService st svc (Except.ok b)).state.googleData svc
      = b.getD []
    ∧ (∀ svc', svc' ≠ svc →
        getGoogleSlot (fetchGoogleService st svc (Except.ok b)).state.googleData svc'
          = getGoogleSlot st.googleData svc')
    ∧ (fetchGoogleService st svc (Except.error ())).state.googleData
      = st.googleData := by
  refine ⟨rfl, rfl, rfl, rfl, ?_, ?_, rfl⟩
  · cases svc <;> rfl
  · intro svc' h
    cases svc <;> cases svc' <;> first | rfl | exact absurd rfl h

/-- Closed witness for the cache-slot theorem at concrete records and
services. -/
theorem fetch_cache_slot_discipline_witness :
    GService.drive ≠ GService.gmail
    ∧ getGoogleSlot (fetchGoogleService (initState Nat) GService.gmail
        (Except.ok (some [5]))).state.googleData GService.drive
      = getGoogleSlot (initState Nat).googleData GService.drive :=
  ⟨by decide,
   (fetch_cache_slot_discipline Nat (initState Nat) (some [5])
      GService.gmail).2.2.2.2.2.1 GService.drive (by decide)⟩

/-- C10: `fetchJiraIssues` writes only the issues slot and
`fetchJiraProjects` only the projects slot — for every outcome, the other
issue-tracker slot, the google cache, the IntegrationSet, the raw status
list and the conversation state are unchanged. -/
theorem jira_fetch_frame (Rec : Type) (app : AppState Rec)
    (b b' : Except Unit (Option (List Rec))) :
    (liftSession (fun σ => fetchJiraIssues σ b) app).state.chat = app.chat
    ∧ (liftSession (fun σ => fetchJiraIssues σ b) app).state.sessions.jiraProjects
      = app.sessions.jiraProjects
    ∧ (liftSession (fun σ => fetchJiraIssues σ b) app).state.sessions.googleData
      = app.sessions.googleData
    ∧ (liftSession (fun σ => fetchJiraIssues σ b) app).state.sessions.integrations
      = app.sessions.integrations
    ∧ (liftSession (fun σ => fetchJiraIssues σ b) app).state.sessions.integrationStatus
      = app.sessions.integrationStatus
    ∧ (liftSession (fun σ => fetchJiraProjects σ b') app).state.chat = app.chat
    ∧ (liftSession (fun σ => fetchJiraProjects σ b') app).state.sessions.jiraIssues
      = app.sessions.jiraIssues
    ∧ (liftSession (fun σ => fetchJiraProjects σ b') app).state.sessions.googleData
      = app.sessions.googleData
    ∧ (liftSession (fun σ => fetchJiraProjects σ b') app).state.sessions.integrations
      = app.sessions.integrations
    ∧ (liftSession (fun σ => fetchJiraProjects σ b') app).state.sessions.integrationStatus
      = app.sessions.integrationStatus := by
  cases b <;> cases b' <;>
    exact ⟨rfl, rfl, rfl, rfl, rfl, rfl, rfl, rfl, rfl, rfl⟩

end Dashboard
